import Mathlib

/-!
Verification of the lightstep-tracer-go options/reporting spec against a
shallow embedding of the repository source (`interfaces.go` and the options
code).  Go `time.Duration` values are embedded as `Int` (nanoseconds), Go
`int` fields as `Int`, the `rand.Float64()` draw as a rational parameter
`r`, and the process environment (program name, hostname, command line) as
an explicit `Env` record.  `Options.Initialize` mutates its receiver in
place in Go; here it is embedded as a function returning the updated
record together with the optional error.
-/

namespace Lightstep

/-- Endpoint from interfaces.go: collector host/port/plaintext. -/
structure Endpoint where
  Host : String
  Port : Int
  Plaintext : Bool
deriving DecidableEq, Repr

/-- Go map `ot.Tags = map[string]interface{}`, embedded as an optional
association list (`none` is the nil map); values embedded as strings. -/
abbrev Tags := Option (List (String × String))

/-- Map lookup on a possibly-nil Go map: lookup on nil finds nothing. -/
def tagsLookup (t : Tags) (k : String) : Option String :=
  match t with
  | none => none
  | some l => l.lookup k

-- Default Option values (interfaces.go `const` block).
def DefaultCollectorPath : String := "/_rpc/v1/reports/binary"

def DefaultPlainPort : Int := 80

def DefaultSecurePort : Int := 443

def DefaultThriftCollectorHost : String := "collector.lightstep.com"

def DefaultGRPCCollectorHost : String := "collector-grpc.lightstep.com"

/-- Go `time.Millisecond` in nanoseconds. -/
def Millisecond : Int := 1000000

/-- Go `time.Second` in nanoseconds. -/
def Second : Int := 1000000000

/-- Go `time.Minute` in nanoseconds. -/
def Minute : Int := 60 * Second

def DefaultMaxReportingPeriod : Int := 2500 * Millisecond

def DefaultMinReportingPeriod : Int := 500 * Millisecond

def DefaultMaxSpans : Int := 1000

def DefaultReportTimeout : Int := 30 * Second

def DefaultReconnectPeriod : Int := 5 * Minute

def DefaultMaxLogKeyLen : Int := 256

def DefaultMaxLogValueLen : Int := 1024

def DefaultMaxLogsPerSpan : Int := 500

/-- Go constant math.MaxInt32. -/
def DefaultGRPCMaxCallSendMsgSizeBytes : Int := 2147483647

-- Tag and Tracer Attribute keys (interfaces.go `const` block).
def ComponentNameKey : String := "lightstep.component_name"

def GUIDKey : String := "lightstep.guid"

def HostnameKey : String := "lightstep.hostname"

def CommandLineKey : String := "lightstep.command_line"

/-- Options from interfaces.go (the two function-valued testing hooks,
`Recorder` and `ConnFactory`, carry no data relevant to `Initialize` and
are omitted). -/
structure Options where
  AccessToken : String
  Collector : Endpoint
  Tags : Tags
  LightStepAPI : Endpoint
  MaxBufferedSpans : Int
  MaxLogKeyLen : Int
  MaxLogValueLen : Int
  MaxLogsPerSpan : Int
  GRPCMaxCallSendMsgSizeBytes : Int
  ReportingPeriod : Int
  MinReportingPeriod : Int
  ReportTimeout : Int
  DropSpanLogs : Bool
  Verbose : Bool
  UseThrift : Bool
  UseHttp : Bool
  UseGRPC : Bool
  ReconnectPeriod : Int
deriving DecidableEq, Repr

/-- The process environment read by `Initialize`: `path.Base(os.Args[0])`,
`os.Hostname()`, and `strings.Join(os.Args, " ")`. -/
structure Env where
  componentName : String
  hostname : String
  commandLine : String
deriving DecidableEq, Repr

/-- Go conversion `int64(f)` for a real value: truncation toward zero
(`Int.div` is T-division). -/
def intTrunc (q : ℚ) : Int :=
  Int.tdiv q.num (q.den : Int)

/-- The jitter applied to `ReconnectPeriod` in `Initialize`:
`time.Duration(float64(p) * (1 + 0.2*rand.Float64()))`, with the draw
`r = rand.Float64()` and float arithmetic embedded as exact rationals. -/
def jitterReconnect (p : Int) (r : ℚ) : Int :=
  intTrunc ((p : ℚ) * (1 + (1 / 5) * r))

/-- The block of zero-defaulting statements in `Initialize` (each `if`
touches a distinct field, so the sequential Go statements are one
simultaneous record update), together with the replacement of a nil Tags
map by an empty one. -/
def defaultZeroFields (opts : Options) : Options :=
  { opts with
    MaxBufferedSpans :=
      if opts.MaxBufferedSpans = 0 then DefaultMaxSpans else opts.MaxBufferedSpans
    MaxLogKeyLen :=
      if opts.MaxLogKeyLen = 0 then DefaultMaxLogKeyLen else opts.MaxLogKeyLen
    MaxLogValueLen :=
      if opts.MaxLogValueLen = 0 then DefaultMaxLogValueLen else opts.MaxLogValueLen
    MaxLogsPerSpan :=
      if opts.MaxLogsPerSpan = 0 then DefaultMaxLogsPerSpan else opts.MaxLogsPerSpan
    GRPCMaxCallSendMsgSizeBytes :=
      if opts.GRPCMaxCallSendMsgSizeBytes = 0 then DefaultGRPCMaxCallSendMsgSizeBytes
      else opts.GRPCMaxCallSendMsgSizeBytes
    ReportingPeriod :=
      if opts.ReportingPeriod = 0 then DefaultMaxReportingPeriod else opts.ReportingPeriod
    MinReportingPeriod :=
      if opts.MinReportingPeriod = 0 then DefaultMinReportingPeriod else opts.MinReportingPeriod
    ReportTimeout :=
      if opts.ReportTimeout = 0 then DefaultReportTimeout else opts.ReportTimeout
    ReconnectPeriod :=
      if opts.ReconnectPeriod = 0 then DefaultReconnectPeriod else opts.ReconnectPeriod
    Tags := some (opts.Tags.getD []) }

/-- One Go statement of the form: if the key is not found in the tag map,
insert it with the given value. -/
def ensureTag (t : List (String × String)) (k v : String) : List (String × String) :=
  if (t.lookup k).isSome then t else t ++ [(k, v)]

/-- The "Set some default attributes if not found in options" block of
`Initialize`: insert component name, hostname and command line tags when
the key is absent. -/
def setDefaultTags (opts : Options) (env : Env) : Options :=
  { opts with
    Tags := some (ensureTag (ensureTag (ensureTag (opts.Tags.getD [])
      ComponentNameKey env.componentName) HostnameKey env.hostname)
      CommandLineKey env.commandLine) }

/-- The collector host/port defaulting at the end of `Initialize`. -/
def defaultCollector (opts : Options) : Options :=
  let host := if opts.Collector.Host = "" then
                (if opts.UseThrift then DefaultThriftCollectorHost
                 else DefaultGRPCCollectorHost)
              else opts.Collector.Host
  let port := if opts.Collector.Port ≤ 0 then
                (if opts.Collector.Plaintext then DefaultPlainPort else DefaultSecurePort)
              else opts.Collector.Port
  { opts with Collector := { Host := host, Port := port, Plaintext := opts.Collector.Plaintext } }

/-- The error message for an empty access token. -/
def accessTokenErr : String :=
  "LightStep Recorder options.AccessToken must not be empty"

/-- The error message for a user-supplied runtime GUID tag. -/
def guidErr : String :=
  "Passing in your own " ++ GUIDKey ++ " is no longer supported\n"

/-- Go method Initialize on a pointer receiver, as a pure function: the
returned `Options` is the receiver after the call (Go mutates in place;
both error returns happen before any mutation), the returned
`Option String` is the Go error (`none` is nil). -/
def Options.Initialize (opts : Options) (env : Env) (r : ℚ) : Options × Option String :=
  if opts.AccessToken.length = 0 then
    (opts, some accessTokenErr)
  else if (tagsLookup opts.Tags GUIDKey).isSome then
    (opts, some guidErr)
  else
    let o1 := defaultZeroFields opts
    let o2 := setDefaultTags o1 env
    let o3 := { o2 with ReconnectPeriod := jitterReconnect o2.ReconnectPeriod r }
    (defaultCollector o3, none)

/-- Modelled from the spec: the ReportBuffer implementation is not under
src/ (src/ holds only the `collectorClient` interface that consumes a
`*reportBuffer`).  Per the spec it is a bounded accumulator with capacity
`maxBufferedSpans`, the pending spans `rawSpans`, and a dropped-span
counter; the span element type is a parameter. -/
structure reportBuffer (α : Type) where
  maxBufferedSpans : Nat
  rawSpans : List α
  droppedSpanCount : Nat
deriving DecidableEq, Repr

/-- Modelled from the spec: Append adds the span when below capacity and
otherwise only increments the dropped-span counter (drop-newest); it is
total, so no error reaches the caller. -/
def reportBuffer.Append {α : Type} (b : reportBuffer α) (s : α) : reportBuffer α :=
  if b.rawSpans.length < b.maxBufferedSpans then
    { b with rawSpans := b.rawSpans ++ [s] }
  else
    { b with droppedSpanCount := b.droppedSpanCount + 1 }

/-- A whole sequence of Append calls, in order. -/
def reportBuffer.AppendAll {α : Type} (b : reportBuffer α) (spans : List α) : reportBuffer α :=
  spans.foldl reportBuffer.Append b

/-- Modelled from the spec: the reporting engine state machine (the engine
implementation is not under src/; src/ holds only the `Tracer` and
`collectorClient` interfaces it is built from). -/
inductive EngineState
  | Connecting
  | Idle
  | Reporting
  | Reconnecting
  | Disabled
deriving DecidableEq, Repr

/-- Modelled from the spec: the events driving the engine state machine —
span appends, flush requests, timer ticks, connection outcomes, report
outcomes (carrying the server disable signal or the reconnect heuristic),
connection teardown, and the tracer Close/Disable request. -/
inductive EngineEvent
  | append
  | flushRequest
  | timerTick
  | connectSucceeded
  | connectFailed
  | reportSuccess (serverDisable : Bool)
  | reportFailure (shouldReconnect : Bool)
  | connectionClosed
  | closeRequest
deriving DecidableEq, Repr

/-- Modelled from the spec: one transition of the engine state machine;
the boolean records whether the transition initiates a Report network
call (entering Reporting from a trigger, or the final flush of Close).
Disabled absorbs every event; Close moves any live state to Disabled
after its final flush attempt; events not applicable in a state leave it
unchanged. -/
def engineStep : EngineState → EngineEvent → EngineState × Bool
  | .Disabled, _ => (.Disabled, false)
  | _, .closeRequest => (.Disabled, true)
  | .Connecting, .connectSucceeded => (.Idle, false)
  | .Idle, .timerTick => (.Reporting, true)
  | .Idle, .flushRequest => (.Reporting, true)
  | .Reporting, .reportSuccess d => (if d then .Disabled else .Idle, false)
  | .Reporting, .reportFailure rc => (if rc then .Reconnecting else .Idle, false)
  | .Reconnecting, .connectionClosed => (.Connecting, false)
  | s, _ => (s, false)

/-- Run the engine over a sequence of events, counting the Report calls
initiated along the way. -/
def engineRun : EngineState → List EngineEvent → EngineState × Nat
  | s, [] => (s, 0)
  | s, e :: rest =>
    let stepped := engineStep s e
    let tail := engineRun stepped.1 rest
    (tail.1, (if stepped.2 then 1 else 0) + tail.2)

-- Concrete sample values used by the witness theorems.
/-- A sample environment. -/
def sampleEnv : Env :=
  { componentName := "myapp", hostname := "myhost", commandLine := "myapp -v" }

/-- A zero-valued endpoint. -/
def zeroEndpoint : Endpoint := { Host := "", Port := 0, Plaintext := false }

/-- A minimal valid Options value: non-empty token, everything else zero. -/
def sampleOpts : Options :=
  { AccessToken := "token"
    Collector := zeroEndpoint
    Tags := none
    LightStepAPI := zeroEndpoint
    MaxBufferedSpans := 0
    MaxLogKeyLen := 0
    MaxLogValueLen := 0
    MaxLogsPerSpan := 0
    GRPCMaxCallSendMsgSizeBytes := 0
    ReportingPeriod := 0
    MinReportingPeriod := 0
    ReportTimeout := 0
    DropSpanLogs := false
    Verbose := false
    UseThrift := false
    UseHttp := false
    UseGRPC := false
    ReconnectPeriod := 0 }

-- Helper lemmas shared by the claim theorems.

/-- Initialize succeeds exactly when the access token is non-empty and no
runtime GUID tag was supplied. -/
theorem initialize_ok_iff (opts : Options) (env : Env) (r : ℚ) :
    (opts.Initialize env r).2 = none ↔
      (opts.AccessToken.length ≠ 0 ∧ tagsLookup opts.Tags GUIDKey = none) := by
  unfold Options.Initialize
  split
  · simp_all
  · split
    · rename_i hg
      simp only [Option.isSome_iff_exists] at hg
      obtain ⟨v, hv⟩ := hg
      simp_all
    · rename_i ht hg
      simp only [Option.isSome_iff_exists, not_exists] at hg
      constructor
      · intro _
        refine ⟨ht, ?_⟩
        cases hx : tagsLookup opts.Tags GUIDKey with
        | none => rfl
        | some v => exact absurd hx (hg v)
      · intro _
        rfl

/-- On success, the receiver after Initialize is the composition of the
zero-defaulting, tag-defaulting, jitter, and collector-defaulting stages. -/
theorem initialize_ok_fst (opts : Options) (env : Env) (r : ℚ)
    (h1 : opts.AccessToken.length ≠ 0) (h2 : tagsLookup opts.Tags GUIDKey = none) :
    (opts.Initialize env r).1 =
      defaultCollector
        { setDefaultTags (defaultZeroFields opts) env with
          ReconnectPeriod := jitterReconnect (defaultZeroFields opts).ReconnectPeriod r } := by
  unfold Options.Initialize
  split
  · simp_all
  · split
    · rename_i hg
      rw [h2] at hg
      simp at hg
    · rfl

/-- On failure, the receiver is returned untouched. -/
theorem initialize_err_fst (opts : Options) (env : Env) (r : ℚ)
    (h : (opts.Initialize env r).2 ≠ none) : (opts.Initialize env r).1 = opts := by
  unfold Options.Initialize at h ⊢
  split
  · rfl
  · split
    · rfl
    · simp_all

/-- Truncation toward zero agrees with the floor on nonnegative rationals. -/
theorem intTrunc_eq_floor (q : ℚ) (h : 0 ≤ q) : intTrunc q = ⌊q⌋ := by
  unfold intTrunc
  rw [Int.tdiv_eq_ediv (Rat.num_nonneg.mpr h) (Int.natCast_nonneg q.den)]
  exact Rat.floor_def.symm

/-- For a positive base and a draw in the unit interval, the jittered
reconnect period lies between the base and 1.2 times the base. -/
theorem jitterReconnect_mem (b : Int) (r : ℚ) (hb : 0 < b) (hr0 : 0 ≤ r)
    (hr1 : r < 1) :
    b ≤ jitterReconnect b r ∧ ((jitterReconnect b r : ℚ) < 6 / 5 * (b : ℚ)) := by
  have hb' : (0 : ℚ) < (b : ℚ) := by exact_mod_cast hb
  have hq0 : (0 : ℚ) ≤ (b : ℚ) * (1 + 1 / 5 * r) := by nlinarith
  unfold jitterReconnect
  rw [intTrunc_eq_floor _ hq0]
  refine ⟨?_, ?_⟩
  · rw [Int.le_floor]
    nlinarith
  · calc ((⌊(b : ℚ) * (1 + 1 / 5 * r)⌋ : ℚ))
        ≤ (b : ℚ) * (1 + 1 / 5 * r) := Int.floor_le _
    _ < 6 / 5 * (b : ℚ) := by nlinarith

/-- A lookup that succeeds is unchanged by appending further bindings. -/
theorem lookup_append_some {l l2 : List (String × String)} {k v : String}
    (h : l.lookup k = some v) : (l ++ l2).lookup k = some v := by
  rw [List.lookup_append, h]
  rfl

/-- ensureTag makes its key present. -/
theorem ensureTag_lookup_self (t : List (String × String)) (k v : String) :
    ((ensureTag t k v).lookup k).isSome = true := by
  unfold ensureTag
  split
  · assumption
  · rw [List.lookup_append]
    rename_i hn
    rw [Option.not_isSome_iff_eq_none] at hn
    rw [hn]
    simp

/-- ensureTag never changes an existing binding. -/
theorem ensureTag_preserves_some {t : List (String × String)} {k2 v2 : String}
    (k v : String) (h : t.lookup k2 = some v2) :
    (ensureTag t k v).lookup k2 = some v2 := by
  unfold ensureTag
  split
  · exact h
  · exact lookup_append_some h

/-- ensureTag never removes a key. -/
theorem ensureTag_preserves_isSome {t : List (String × String)} {k2 : String}
    (k v : String) (h : (t.lookup k2).isSome = true) :
    ((ensureTag t k v).lookup k2).isSome = true := by
  rw [Option.isSome_iff_exists] at h
  obtain ⟨v2, hv2⟩ := h
  rw [ensureTag_preserves_some k v hv2]
  rfl

/-- A non-empty string has non-zero length. -/
theorem length_ne_zero_of_ne_empty {s : String} (h : s ≠ "") : s.length ≠ 0 :=
  fun h0 => h (String.ext (List.length_eq_zero.mp h0))

-- Further concrete inputs for the witness theorems.
/-- Valid options with a negative supplied ReconnectPeriod. -/
def ceOpts : Options := { sampleOpts with ReconnectPeriod := -7 }

/-- Options carrying a user-supplied runtime GUID tag. -/
def guidOpts : Options := { sampleOpts with Tags := some [(GUIDKey, "g")] }

/-- Options carrying a user-supplied component name tag. -/
def componentOpts : Options :=
  { sampleOpts with Tags := some [(ComponentNameKey, "custom")] }

/-- Valid options with every defaultable numeric field negative. -/
def negOpts : Options :=
  { sampleOpts with
    Collector := { Host := "h", Port := -2, Plaintext := true }
    MaxBufferedSpans := -1
    MaxLogKeyLen := -1
    MaxLogValueLen := -1
    MaxLogsPerSpan := -1
    GRPCMaxCallSendMsgSizeBytes := -1
    ReportingPeriod := -1
    MinReportingPeriod := -1
    ReportTimeout := -1
    ReconnectPeriod := -7 }

/-- C1: Initialize returns a non-nil error — the access-token
configuration error, surfaced synchronously — for every Options value
whose AccessToken is the empty string, and never fails with that error
when AccessToken is non-empty. -/
theorem initialize_accessToken_check (opts : Options) (env : Env) (r : ℚ) :
    (opts.AccessToken = "" → (opts.Initialize env r).2 = some accessTokenErr) ∧
    (opts.AccessToken ≠ "" → (opts.Initialize env r).2 ≠ some accessTokenErr) := by
  constructor
  · intro he
    unfold Options.Initialize
    rw [he]
    rfl
  · intro hne
    unfold Options.Initialize
    rw [if_neg (length_ne_zero_of_ne_empty hne)]
    split
    · intro hc
      have hmsg : guidErr = accessTokenErr := by
        simpa using hc
      exact absurd hmsg (by decide)
    · simp

/-- C1 witness: at an empty and at a non-empty token. -/
theorem initialize_accessToken_check_witness :
    (({ sampleOpts with AccessToken := "" }).Initialize sampleEnv 0).2 = some accessTokenErr ∧
    (sampleOpts.Initialize sampleEnv 0).2 ≠ some accessTokenErr :=
  ⟨(initialize_accessToken_check { sampleOpts with AccessToken := "" } sampleEnv 0).1 rfl,
   (initialize_accessToken_check sampleOpts sampleEnv 0).2 (by decide)⟩

/-- C2: on success every zero-valued configuration field is replaced by
its documented default and non-zero values are kept as supplied; the
(possibly defaulted) ReconnectPeriod then feeds the jitter. -/
theorem initialize_zero_defaults (opts : Options) (env : Env) (r : ℚ)
    (h : (opts.Initialize env r).2 = none) :
    (opts.Initialize env r).1.MaxBufferedSpans =
      (if opts.MaxBufferedSpans = 0 then 1000 else opts.MaxBufferedSpans) ∧
    (opts.Initialize env r).1.MaxLogKeyLen =
      (if opts.MaxLogKeyLen = 0 then 256 else opts.MaxLogKeyLen) ∧
    (opts.Initialize env r).1.MaxLogValueLen =
      (if opts.MaxLogValueLen = 0 then 1024 else opts.MaxLogValueLen) ∧
    (opts.Initialize env r).1.MaxLogsPerSpan =
      (if opts.MaxLogsPerSpan = 0 then 500 else opts.MaxLogsPerSpan) ∧
    (opts.Initialize env r).1.ReportingPeriod =
      (if opts.ReportingPeriod = 0 then 2500 * Millisecond else opts.ReportingPeriod) ∧
    (opts.Initialize env r).1.MinReportingPeriod =
      (if opts.MinReportingPeriod = 0 then 500 * Millisecond else opts.MinReportingPeriod) ∧
    (opts.Initialize env r).1.ReportTimeout =
      (if opts.ReportTimeout = 0 then 30 * Second else opts.ReportTimeout) ∧
    (opts.Initialize env r).1.ReconnectPeriod =
      jitterReconnect (if opts.ReconnectPeriod = 0 then 5 * Minute else opts.ReconnectPeriod) r := by
  obtain ⟨h1, h2⟩ := (initialize_ok_iff opts env r).mp h
  rw [initialize_ok_fst opts env r h1 h2]
  exact ⟨rfl, rfl, rfl, rfl, rfl, rfl, rfl, rfl⟩

/-- C2 witness: the all-zero sample options receive every default. -/
theorem initialize_zero_defaults_witness :
    (sampleOpts.Initialize sampleEnv (mkRat 1 2)).1.MaxBufferedSpans =
      (if sampleOpts.MaxBufferedSpans = 0 then 1000 else sampleOpts.MaxBufferedSpans) ∧
    (sampleOpts.Initialize sampleEnv (mkRat 1 2)).1.MaxLogKeyLen =
      (if sampleOpts.MaxLogKeyLen = 0 then 256 else sampleOpts.MaxLogKeyLen) ∧
    (sampleOpts.Initialize sampleEnv (mkRat 1 2)).1.MaxLogValueLen =
      (if sampleOpts.MaxLogValueLen = 0 then 1024 else sampleOpts.MaxLogValueLen) ∧
    (sampleOpts.Initialize sampleEnv (mkRat 1 2)).1.MaxLogsPerSpan =
      (if sampleOpts.MaxLogsPerSpan = 0 then 500 else sampleOpts.MaxLogsPerSpan) ∧
    (sampleOpts.Initialize sampleEnv (mkRat 1 2)).1.ReportingPeriod =
      (if sampleOpts.ReportingPeriod = 0 then 2500 * Millisecond else sampleOpts.ReportingPeriod) ∧
    (sampleOpts.Initialize sampleEnv (mkRat 1 2)).1.MinReportingPeriod =
      (if sampleOpts.MinReportingPeriod = 0 then 500 * Millisecond else sampleOpts.MinReportingPeriod) ∧
    (sampleOpts.Initialize sampleEnv (mkRat 1 2)).1.ReportTimeout =
      (if sampleOpts.ReportTimeout = 0 then 30 * Second else sampleOpts.ReportTimeout) ∧
    (sampleOpts.Initialize sampleEnv (mkRat 1 2)).1.ReconnectPeriod =
      jitterReconnect (if sampleOpts.ReconnectPeriod = 0 then 5 * Minute else sampleOpts.ReconnectPeriod)
        (mkRat 1 2) :=
  initialize_zero_defaults sampleOpts sampleEnv (mkRat 1 2) (by decide)

/-- C4: when the collector host is empty and Initialize succeeds, the host
defaults to the Thrift collector exactly when UseThrift is set and to the
gRPC collector in every other case, including when only UseHttp is set. -/
theorem initialize_collector_host_default (opts : Options) (env : Env) (r : ℚ)
    (h : (opts.Initialize env r).2 = none) (hhost : opts.Collector.Host = "") :
    (opts.Initialize env r).1.Collector.Host =
      (if opts.UseThrift then DefaultThriftCollectorHost else DefaultGRPCCollectorHost) := by
  obtain ⟨h1, h2⟩ := (initialize_ok_iff opts env r).mp h
  rw [initialize_ok_fst opts env r h1 h2]
  show (if opts.Collector.Host = "" then
          (if opts.UseThrift then DefaultThriftCollectorHost else DefaultGRPCCollectorHost)
        else opts.Collector.Host) = _
  rw [if_pos hhost]

/-- C4 witness: an HTTP-only options value still defaults to the gRPC
collector host. -/
theorem initialize_collector_host_default_witness :
    (({ sampleOpts with UseHttp := true }).Initialize sampleEnv 0).1.Collector.Host =
      (if ({ sampleOpts with UseHttp := true } : Options).UseThrift then DefaultThriftCollectorHost
       else DefaultGRPCCollectorHost) :=
  initialize_collector_host_default { sampleOpts with UseHttp := true } sampleEnv 0 (by decide) rfl

/-- C8: Initialize is atomic on failure — when it returns a non-nil error
every field of the receiver is exactly as the caller supplied it. -/
theorem initialize_error_atomic (opts : Options) (env : Env) (r : ℚ)
    (h : (opts.Initialize env r).2 ≠ none) : (opts.Initialize env r).1 = opts :=
  initialize_err_fst opts env r h

/-- C8 witness: a failing Initialize leaves the options untouched. -/
theorem initialize_error_atomic_witness :
    (({ sampleOpts with AccessToken := "" }).Initialize sampleEnv 0).1 =
      { sampleOpts with AccessToken := "" } :=
  initialize_error_atomic { sampleOpts with AccessToken := "" } sampleEnv 0 (by decide)

/-- C9: a user-supplied runtime GUID tag makes Initialize return a non-nil
error. -/
theorem initialize_rejects_guid_tag (opts : Options) (env : Env) (r : ℚ)
    (h : (tagsLookup opts.Tags GUIDKey).isSome = true) :
    ((opts.Initialize env r).2).isSome = true := by
  unfold Options.Initialize
  split
  · rfl
  · rfl

/-- C9 witness: options with a runtime GUID tag are rejected. -/
theorem initialize_rejects_guid_tag_witness :
    ((guidOpts.Initialize sampleEnv 0).2).isSome = true :=
  initialize_rejects_guid_tag guidOpts sampleEnv 0 rfl

/-- C3 counterexample: with supplied ReconnectPeriod -7 ns and draw 1/2,
Initialize succeeds and the final ReconnectPeriod is -7 (the Go float to
integer-duration conversion truncates -7.7 toward zero), so it neither
equals the exact product b*(1 + 0.2*r) = -7.7 nor lies in the interval
from b inclusive to 1.2*b exclusive, which is empty for negative b. -/
theorem reconnect_jitter_claim_counterexample :
    (ceOpts.Initialize sampleEnv (mkRat 1 2)).2 = none ∧
    ¬ ((((ceOpts.Initialize sampleEnv (mkRat 1 2)).1.ReconnectPeriod : ℚ) =
          ((ceOpts.ReconnectPeriod : Int) : ℚ) * (1 + 1 / 5 * (mkRat 1 2))) ∧
       (ceOpts.ReconnectPeriod ≤ (ceOpts.Initialize sampleEnv (mkRat 1 2)).1.ReconnectPeriod) ∧
       (((ceOpts.Initialize sampleEnv (mkRat 1 2)).1.ReconnectPeriod : ℚ) <
          6 / 5 * ((ceOpts.ReconnectPeriod : Int) : ℚ))) := by
  have hrp : (ceOpts.Initialize sampleEnv (mkRat 1 2)).1.ReconnectPeriod = -7 := by
    rw [initialize_ok_fst ceOpts sampleEnv (mkRat 1 2) (by decide) rfl]
    show jitterReconnect (defaultZeroFields ceOpts).ReconnectPeriod (mkRat 1 2) = -7
    have hz : (defaultZeroFields ceOpts).ReconnectPeriod = -7 := by decide
    rw [hz]
    unfold jitterReconnect
    have hq : ((-7 : Int) : ℚ) * (1 + 1 / 5 * (mkRat 1 2)) = mkRat (-77) 10 := by
      rw [Rat.mkRat_eq_divInt, Rat.mkRat_eq_divInt, Rat.divInt_eq_div, Rat.divInt_eq_div]
      push_cast
      norm_num
    rw [hq]
    decide
  refine ⟨by decide, ?_⟩
  rw [hrp]
  have hce : ceOpts.ReconnectPeriod = -7 := rfl
  rw [hce]
  rintro ⟨-, -, hlt⟩
  push_cast at hlt
  norm_num at hlt

/-- C3 amended: for every successful Initialize the final ReconnectPeriod
equals the truncation toward zero of the zero-defaulted base b times
(1 + 0.2*r) — including negative supplied bases — and when b is positive
and the draw r lies in the unit interval, it lies between b inclusive and
1.2*b exclusive. -/
theorem reconnect_jitter_bounds (opts : Options) (env : Env) (r : ℚ)
    (h : (opts.Initialize env r).2 = none) :
    (opts.Initialize env r).1.ReconnectPeriod =
      jitterReconnect
        (if opts.ReconnectPeriod = 0 then DefaultReconnectPeriod else opts.ReconnectPeriod) r ∧
    (0 < (if opts.ReconnectPeriod = 0 then DefaultReconnectPeriod else opts.ReconnectPeriod) →
     0 ≤ r → r < 1 →
     (if opts.ReconnectPeriod = 0 then DefaultReconnectPeriod else opts.ReconnectPeriod) ≤
        (opts.Initialize env r).1.ReconnectPeriod ∧
     ((opts.Initialize env r).1.ReconnectPeriod : ℚ) <
        6 / 5 *
          (((if opts.ReconnectPeriod = 0 then DefaultReconnectPeriod
             else opts.ReconnectPeriod) : Int) : ℚ)) := by
  obtain ⟨h1, h2⟩ := (initialize_ok_iff opts env r).mp h
  rw [initialize_ok_fst opts env r h1 h2]
  refine ⟨rfl, ?_⟩
  intro hb hr0 hr1
  refine ⟨?_, ?_⟩
  · show _ ≤ jitterReconnect
      (if opts.ReconnectPeriod = 0 then DefaultReconnectPeriod else opts.ReconnectPeriod) r
    exact (jitterReconnect_mem _ r hb hr0 hr1).1
  · show ((jitterReconnect
      (if opts.ReconnectPeriod = 0 then DefaultReconnectPeriod else opts.ReconnectPeriod) r : Int) : ℚ) < _
    exact (jitterReconnect_mem _ r hb hr0 hr1).2

/-- C3 amended witness: the all-zero sample options with draw 1/2, with
the positivity and unit-interval conditions discharged concretely. -/
theorem reconnect_jitter_bounds_witness :
    (sampleOpts.Initialize sampleEnv (mkRat 1 2)).1.ReconnectPeriod =
      jitterReconnect
        (if sampleOpts.ReconnectPeriod = 0 then DefaultReconnectPeriod else sampleOpts.ReconnectPeriod)
        (mkRat 1 2) ∧
    (if sampleOpts.ReconnectPeriod = 0 then DefaultReconnectPeriod else sampleOpts.ReconnectPeriod) ≤
      (sampleOpts.Initialize sampleEnv (mkRat 1 2)).1.ReconnectPeriod ∧
    ((sampleOpts.Initialize sampleEnv (mkRat 1 2)).1.ReconnectPeriod : ℚ) <
      6 / 5 *
        (((if sampleOpts.ReconnectPeriod = 0 then DefaultReconnectPeriod
           else sampleOpts.ReconnectPeriod) : Int) : ℚ) :=
  have h := reconnect_jitter_bounds sampleOpts sampleEnv (mkRat 1 2) (by decide)
  have hb := h.2 (by decide) (by decide) (by decide)
  ⟨h.1, hb.1, hb.2⟩

/-- C5: after a successful Initialize the tag map contains entries for the
component-name, hostname and command-line keys, and any user-supplied
binding is preserved unchanged. -/
theorem initialize_tag_defaults (opts : Options) (env : Env) (r : ℚ) (k v : String)
    (h : (opts.Initialize env r).2 = none) :
    (tagsLookup (opts.Initialize env r).1.Tags ComponentNameKey).isSome = true ∧
    (tagsLookup (opts.Initialize env r).1.Tags HostnameKey).isSome = true ∧
    (tagsLookup (opts.Initialize env r).1.Tags CommandLineKey).isSome = true ∧
    (tagsLookup opts.Tags k = some v → tagsLookup (opts.Initialize env r).1.Tags k = some v) := by
  obtain ⟨h1, h2⟩ := (initialize_ok_iff opts env r).mp h
  rw [initialize_ok_fst opts env r h1 h2]
  refine ⟨?_, ?_, ?_, ?_⟩
  · exact ensureTag_preserves_isSome _ _
      (ensureTag_preserves_isSome _ _ (ensureTag_lookup_self _ _ _))
  · exact ensureTag_preserves_isSome _ _ (ensureTag_lookup_self _ _ _)
  · exact ensureTag_lookup_self _ _ _
  · intro hk
    cases htag : opts.Tags with
    | none =>
      rw [htag] at hk
      exact absurd hk (by simp [tagsLookup])
    | some l =>
      rw [htag] at hk
      have hl : l.lookup k = some v := hk
      have hgetD : opts.Tags.getD [] = l := by rw [htag]; rfl
      show (ensureTag (ensureTag (ensureTag (opts.Tags.getD []) ComponentNameKey
        env.componentName) HostnameKey env.hostname) CommandLineKey env.commandLine).lookup k
          = some v
      rw [hgetD]
      exact ensureTag_preserves_some _ _
        (ensureTag_preserves_some _ _ (ensureTag_preserves_some _ _ hl))

/-- C5 witness: a user-supplied component name tag is kept, and all three
default keys are present afterwards. -/
theorem initialize_tag_defaults_witness :
    (tagsLookup (componentOpts.Initialize sampleEnv 0).1.Tags ComponentNameKey).isSome = true ∧
    (tagsLookup (componentOpts.Initialize sampleEnv 0).1.Tags HostnameKey).isSome = true ∧
    (tagsLookup (componentOpts.Initialize sampleEnv 0).1.Tags CommandLineKey).isSome = true ∧
    tagsLookup (componentOpts.Initialize sampleEnv 0).1.Tags ComponentNameKey = some "custom" :=
  have h := initialize_tag_defaults componentOpts sampleEnv 0 ComponentNameKey "custom" (by decide)
  ⟨h.1, h.2.1, h.2.2.1, h.2.2.2 rfl⟩

/-- C10: defaulting triggers only on exact zero — negative values for the
listed fields pass validation unchanged (the supplied negative
ReconnectPeriod feeds the jitter), while a non-positive Collector.Port is
defaulted according to Plaintext. -/
theorem initialize_negative_values_survive (opts : Options) (env : Env) (r : ℚ)
    (h1 : opts.AccessToken ≠ "") (h2 : tagsLookup opts.Tags GUIDKey = none) :
    (opts.Initialize env r).2 = none ∧
    (opts.MaxBufferedSpans < 0 →
      (opts.Initialize env r).1.MaxBufferedSpans = opts.MaxBufferedSpans) ∧
    (opts.MaxLogKeyLen < 0 →
      (opts.Initialize env r).1.MaxLogKeyLen = opts.MaxLogKeyLen) ∧
    (opts.MaxLogValueLen < 0 →
      (opts.Initialize env r).1.MaxLogValueLen = opts.MaxLogValueLen) ∧
    (opts.MaxLogsPerSpan < 0 →
      (opts.Initialize env r).1.MaxLogsPerSpan = opts.MaxLogsPerSpan) ∧
    (opts.ReportingPeriod < 0 →
      (opts.Initialize env r).1.ReportingPeriod = opts.ReportingPeriod) ∧
    (opts.MinReportingPeriod < 0 →
      (opts.Initialize env r).1.MinReportingPeriod = opts.MinReportingPeriod) ∧
    (opts.ReportTimeout < 0 →
      (opts.Initialize env r).1.ReportTimeout = opts.ReportTimeout) ∧
    (opts.ReconnectPeriod < 0 →
      (opts.Initialize env r).1.ReconnectPeriod = jitterReconnect opts.ReconnectPeriod r) ∧
    (opts.Collector.Port ≤ 0 →
      (opts.Initialize env r).1.Collector.Port =
        (if opts.Collector.Plaintext then DefaultPlainPort else DefaultSecurePort)) := by
  have h1l := length_ne_zero_of_ne_empty h1
  have hok : (opts.Initialize env r).2 = none :=
    (initialize_ok_iff opts env r).mpr ⟨h1l, h2⟩
  rw [initialize_ok_fst opts env r h1l h2]
  refine ⟨hok, ?_, ?_, ?_, ?_, ?_, ?_, ?_, ?_, ?_⟩
  · intro hneg
    show (if opts.MaxBufferedSpans = 0 then DefaultMaxSpans else opts.MaxBufferedSpans) = _
    rw [if_neg (by omega)]
  · intro hneg
    show (if opts.MaxLogKeyLen = 0 then DefaultMaxLogKeyLen else opts.MaxLogKeyLen) = _
    rw [if_neg (by omega)]
  · intro hneg
    show (if opts.MaxLogValueLen = 0 then DefaultMaxLogValueLen else opts.MaxLogValueLen) = _
    rw [if_neg (by omega)]
  · intro hneg
    show (if opts.MaxLogsPerSpan = 0 then DefaultMaxLogsPerSpan else opts.MaxLogsPerSpan) = _
    rw [if_neg (by omega)]
  · intro hneg
    show (if opts.ReportingPeriod = 0 then DefaultMaxReportingPeriod else opts.ReportingPeriod) = _
    rw [if_neg (by omega)]
  · intro hneg
    show (if opts.MinReportingPeriod = 0 then DefaultMinReportingPeriod
          else opts.MinReportingPeriod) = _
    rw [if_neg (by omega)]
  · intro hneg
    show (if opts.ReportTimeout = 0 then DefaultReportTimeout else opts.ReportTimeout) = _
    rw [if_neg (by omega)]
  · intro hneg
    show jitterReconnect
      (if opts.ReconnectPeriod = 0 then DefaultReconnectPeriod else opts.ReconnectPeriod) r = _
    rw [if_neg (by omega)]
  · intro hport
    show (if opts.Collector.Port ≤ 0 then
            (if opts.Collector.Plaintext then DefaultPlainPort else DefaultSecurePort)
          else opts.Collector.Port) = _
    rw [if_pos hport]

/-- C10 witness: an options value with every defaultable field negative
survives Initialize unchanged except for the port default and the jitter
applied to the supplied negative base. -/
theorem initialize_negative_values_survive_witness :
    (negOpts.Initialize sampleEnv 0).2 = none ∧
    (negOpts.Initialize sampleEnv 0).1.MaxBufferedSpans = negOpts.MaxBufferedSpans ∧
    (negOpts.Initialize sampleEnv 0).1.MaxLogKeyLen = negOpts.MaxLogKeyLen ∧
    (negOpts.Initialize sampleEnv 0).1.MaxLogValueLen = negOpts.MaxLogValueLen ∧
    (negOpts.Initialize sampleEnv 0).1.MaxLogsPerSpan = negOpts.MaxLogsPerSpan ∧
    (negOpts.Initialize sampleEnv 0).1.ReportingPeriod = negOpts.ReportingPeriod ∧
    (negOpts.Initialize sampleEnv 0).1.MinReportingPeriod = negOpts.MinReportingPeriod ∧
    (negOpts.Initialize sampleEnv 0).1.ReportTimeout = negOpts.ReportTimeout ∧
    (negOpts.Initialize sampleEnv 0).1.ReconnectPeriod =
      jitterReconnect negOpts.ReconnectPeriod 0 ∧
    (negOpts.Initialize sampleEnv 0).1.Collector.Port =
      (if negOpts.Collector.Plaintext then DefaultPlainPort else DefaultSecurePort) :=
  have h := initialize_negative_values_survive negOpts sampleEnv 0 (by decide) rfl
  ⟨h.1, h.2.1 (by decide), h.2.2.1 (by decide), h.2.2.2.1 (by decide),
   h.2.2.2.2.1 (by decide), h.2.2.2.2.2.1 (by decide), h.2.2.2.2.2.2.1 (by decide),
   h.2.2.2.2.2.2.2.1 (by decide), h.2.2.2.2.2.2.2.2.1 (by decide),
   h.2.2.2.2.2.2.2.2.2 (by decide)⟩

/-- Append never changes the capacity field. -/
theorem append_max {α : Type} (b : reportBuffer α) (s : α) :
    (b.Append s).maxBufferedSpans = b.maxBufferedSpans := by
  unfold reportBuffer.Append
  split <;> rfl

/-- Append preserves the length bound. -/
theorem append_len_le {α : Type} (b : reportBuffer α) (s : α)
    (h : b.rawSpans.length ≤ b.maxBufferedSpans) :
    (b.Append s).rawSpans.length ≤ b.maxBufferedSpans := by
  unfold reportBuffer.Append
  split
  · rename_i hlt
    simp only [List.length_append, List.length_cons, List.length_nil]
    omega
  · simpa using h

/-- The length bound is an invariant of any sequence of appends. -/
theorem appendAll_invariant {α : Type} (spans : List α) (b : reportBuffer α)
    (h : b.rawSpans.length ≤ b.maxBufferedSpans) :
    (b.AppendAll spans).maxBufferedSpans = b.maxBufferedSpans ∧
    (b.AppendAll spans).rawSpans.length ≤ b.maxBufferedSpans := by
  induction spans generalizing b with
  | nil => exact ⟨rfl, h⟩
  | cons s rest ih =>
    have hmax := append_max b s
    have hlen : (b.Append s).rawSpans.length ≤ (b.Append s).maxBufferedSpans := by
      rw [hmax]
      exact append_len_le b s h
    have hstep := ih (b.Append s) hlen
    have hall : b.AppendAll (s :: rest) = (b.Append s).AppendAll rest := rfl
    rw [hall]
    exact ⟨hstep.1.trans hmax, hstep.2.trans_eq hmax⟩

/-- C6: the buffer length never exceeds the capacity over any sequence of
appends, and an append on a full buffer leaves the contents unchanged
while incrementing the dropped-span counter exactly once; Append is total,
so no error reaches the caller. -/
theorem reportBuffer_bounded_drop {α : Type} (b0 : reportBuffer α) (spans : List α)
    (b : reportBuffer α) (s : α)
    (h0 : b0.rawSpans.length ≤ b0.maxBufferedSpans)
    (hfull : b.maxBufferedSpans ≤ b.rawSpans.length) :
    (b0.AppendAll spans).rawSpans.length ≤ b0.maxBufferedSpans ∧
    (b.Append s).rawSpans = b.rawSpans ∧
    (b.Append s).droppedSpanCount = b.droppedSpanCount + 1 := by
  refine ⟨(appendAll_invariant spans b0 h0).2, ?_, ?_⟩ <;>
    · unfold reportBuffer.Append
      rw [if_neg (by omega)]

/-- C6 witness: three appends into a two-slot buffer stay within bounds;
an append on a full buffer drops the span and counts it. -/
theorem reportBuffer_bounded_drop_witness :
    (((⟨2, [], 0⟩ : reportBuffer Nat).AppendAll [10, 11, 12]).rawSpans.length ≤ 2) ∧
    ((⟨2, [5, 6], 3⟩ : reportBuffer Nat).Append 7).rawSpans = [5, 6] ∧
    ((⟨2, [5, 6], 3⟩ : reportBuffer Nat).Append 7).droppedSpanCount = 3 + 1 :=
  reportBuffer_bounded_drop (⟨2, [], 0⟩ : reportBuffer Nat) [10, 11, 12]
    (⟨2, [5, 6], 3⟩ : reportBuffer Nat) 7 (by decide) (by decide)

/-- C7: Disabled is terminal and irreversible — processing a Disable
response in Reporting enters Disabled, a Close request from any state ends
in Disabled, every later event is a no-op in Disabled, and no run of
events from Disabled ever initiates another Report call. -/
theorem engine_disabled_terminal :
    (engineStep .Reporting (.reportSuccess true) = (.Disabled, false)) ∧
    (∀ s : EngineState, (engineStep s .closeRequest).1 = .Disabled) ∧
    (∀ e : EngineEvent, engineStep .Disabled e = (.Disabled, false)) ∧
    (∀ evs : List EngineEvent, engineRun .Disabled evs = (.Disabled, 0)) := by
  have hstep : ∀ e : EngineEvent, engineStep .Disabled e = (.Disabled, false) := by
    intro e
    cases e <;> rfl
  refine ⟨rfl, ?_, hstep, ?_⟩
  · intro s
    cases s <;> rfl
  · intro evs
    induction evs with
    | nil => rfl
    | cons e rest ih => simp [engineRun, hstep e, ih]

end Lightstep
